import Mathlib

/-!
# Verification of the truss-design program

Shallow embedding of the core of this repository: the truss file parser,
the model entities, the link-geometry computation and the report
generation.  The embedded code is `Truss/Truss_stem.py`, which is the
module the application (`Truss_App.py`) imports; the file `Truss.py` at
the repository root is the unmodified instructor skeleton that nothing
imports.  Where the two variants disagree, `Truss_stem.py` is the program.

Modelling conventions:
* Python floats are modelled exactly: parsed literals as rationals (`ℚ`),
  derived geometry (square roots, arc-cosines) as real numbers (`ℝ`).
  Floating-point rounding is not modelled.
* Python string methods used by the parser (`strip`, `split(',')`,
  `lower`, `startswith('#')`, `strip("'")`) are embedded as structural
  functions on the character list of the string, so that concrete runs
  reduce in the kernel.
* `float(s)` is embedded with the decimal grammar
  `[sign] (digits [. digits] | . digits) [(e|E) [sign] digits]`.
  The special spellings `inf`/`nan` and underscore digit separators,
  which no claim touches, are not modelled.
* Exceptions raised by the Python code (`ValueError` from `float` and
  from tuple unpacking, `IndexError` from indexing, `TypeError` from
  comparing or formatting `None`, `AttributeError` from attribute access
  on `None`) are modelled by an error type threaded through `Except` /
  result pairs.  The repository defines no error classes of its own.
* GUI rendering (`drawTruss`, scene items, pens, widgets) is out of
  scope, as in the specification; `displayReport` is modelled up to the
  data it computes: which formatting steps run (and can raise on `None`)
  and which link is written to the longest-link widgets.  The rendered
  text itself is read by no claim and is not modelled.
-/

namespace TrussSpec

/-! ## Python string primitives (character-level, structural) -/

/-- The apostrophe character, written via its code point. -/
def quoteChar : Char := Char.ofNat 39

/-- Python `str.strip()` on a character list: drop whitespace from both ends. -/
def stripChars (cs : List Char) : List Char :=
  ((cs.dropWhile Char.isWhitespace).reverse.dropWhile Char.isWhitespace).reverse

/-- Python `line.strip()`. -/
def pyStrip (s : String) : String :=
  ⟨stripChars s.data⟩

/-- Python `line.startswith("#")`. -/
def startsWithHash (s : String) : Bool :=
  match s.data with
  | [] => false
  | c :: _ => c == '#'

/-- Python `s.split(',')` on a character list: split at every comma,
keeping empty parts; always returns at least one part. -/
def splitOnComma (cs : List Char) : List (List Char) :=
  match cs with
  | [] => [[]]
  | c :: rest =>
    let r := splitOnComma rest
    if c == ',' then [] :: r
    else
      match r with
      | f :: others => (c :: f) :: others
      | [] => [[c]]

/-- Python `[part.strip() for part in line.split(',')]`. -/
def tokenize (s : String) : List String :=
  (splitOnComma s.data).map (fun cs => ⟨stripChars cs⟩)

/-- Python `s.lower()` (ASCII, which covers every keyword in the grammar). -/
def pyLower (s : String) : String :=
  ⟨s.data.map Char.toLower⟩

/-- Python `s.strip("'")`: drop apostrophes from both ends. -/
def stripQuotes (s : String) : String :=
  ⟨((s.data.dropWhile (fun c => c == quoteChar)).reverse.dropWhile
      (fun c => c == quoteChar)).reverse⟩

/-! ## The Python exceptions the embedded code can raise -/

/-- The exceptions raisable by the embedded fragment of the program.
`valueError` carries the argument of a failed `float(...)` conversion
(Python: `could not convert string to float: ...`) or the marker
`"unpack"` for a tuple-unpacking arity mismatch.  Note that none of
these carries a line index or the raw line text: the program has no
error type of its own. -/
inductive PyError where
  | valueError (arg : String)
  | typeError
  | attributeError
  | indexError
deriving DecidableEq

/-! ## `float(s)` -/

/-- The syntactic pieces of a decimal float literal: sign, the digits of
the integer and fractional parts merged into one mantissa, the number of
fractional digits, and the (signed) exponent. -/
structure FloatParts where
  neg : Bool
  mantissa : ℕ
  fracDigits : ℕ
  exp : ℤ
deriving DecidableEq

/-- Read a maximal run of decimal digits, returning their values and the
remaining characters. -/
def takeDigits (cs : List Char) : List ℕ × List Char :=
  match cs with
  | [] => ([], [])
  | c :: rest =>
    if c.isDigit then
      let r := takeDigits rest
      ((c.toNat - 48) :: r.1, r.2)
    else ([], c :: rest)

/-- The number denoted by a digit-value list, most significant first. -/
def natOfDigits (ds : List ℕ) : ℕ :=
  ds.foldl (fun a d => 10 * a + d) 0

/-- Recognize the decimal grammar of Python `float(...)` on a stripped
character list.  Returns `none` exactly when `float` raises `ValueError`. -/
def floatParts (cs : List Char) : Option FloatParts :=
  let sgn : Bool × List Char :=
    match cs with
    | '+' :: r => (false, r)
    | '-' :: r => (true, r)
    | r => (false, r)
  let ipr := takeDigits sgn.2
  let fpr : List ℕ × List Char :=
    match ipr.2 with
    | '.' :: r => takeDigits r
    | r => ([], r)
  if ipr.1 = [] ∧ fpr.1 = [] then none
  else
    match fpr.2 with
    | [] => some ⟨sgn.1, natOfDigits (ipr.1 ++ fpr.1), fpr.1.length, 0⟩
    | e :: r =>
      if e == 'e' || e == 'E' then
        let esgn : Bool × List Char :=
          match r with
          | '+' :: r2 => (false, r2)
          | '-' :: r2 => (true, r2)
          | r2 => (false, r2)
        let edr := takeDigits esgn.2
        if edr.1 = [] then none
        else
          match edr.2 with
          | [] => some ⟨sgn.1, natOfDigits (ipr.1 ++ fpr.1), fpr.1.length,
                        if esgn.1 then -(natOfDigits edr.1 : ℤ) else (natOfDigits edr.1 : ℤ)⟩
          | _ => none
      else none

/-- The exact rational value of a recognized float literal. -/
def ratOfParts (p : FloatParts) : ℚ :=
  (if p.neg then -1 else 1) * (p.mantissa : ℚ) / 10 ^ p.fracDigits * 10 ^ p.exp

/-- Python `float(s)`: the exact value of the literal, or the `ValueError`
carrying the offending argument. -/
def pyFloat (s : String) : Except PyError ℚ :=
  match floatParts s.data with
  | some p => Except.ok (ratOfParts p)
  | none => Except.error (PyError.valueError s)

/-- Python `map(float, data)`, drawn left to right: the conversion of the
first unconvertible element raises. -/
def pyFloats (data : List String) : Except PyError (List ℚ) :=
  match data with
  | [] => Except.ok []
  | s :: rest =>
    match pyFloat s with
    | Except.error e => Except.error e
    | Except.ok v =>
      match pyFloats rest with
      | Except.error e => Except.error e
      | Except.ok vs => Except.ok (v :: vs)

/-! ## The data model (`Position`, `Material`, `Node`, `Link`, `TrussModel`) -/

/-- `Position`: a point in 3D space.  Only the fields and operations the
claims reach are embedded (`__sub__`, `mag`, `getAngleRad`); parsed
coordinates are exact rationals. -/
structure Position where
  x : ℚ
  y : ℚ
  z : ℚ
deriving DecidableEq

/-- `Position.__sub__`: componentwise difference. -/
def Position.sub (p o : Position) : Position :=
  ⟨p.x - o.x, p.y - o.y, p.z - o.z⟩

/-- `Position.mag`: `(x**2 + y**2 + z**2)**0.5`, the Euclidean magnitude
(`**0.5` is the principal square root of a nonnegative number). -/
noncomputable def Position.mag (p : Position) : ℝ :=
  Real.sqrt ((p.x : ℝ) ^ 2 + (p.y : ℝ) ^ 2 + (p.z : ℝ) ^ 2)

/-- `Position.getAngleRad`: `0` if the magnitude is `<= 0`, else
`acos(x/l)` when `y >= 0` and `2*pi - acos(x/l)` otherwise. -/
noncomputable def Position.getAngleRad (p : Position) : ℝ :=
  if p.mag ≤ 0 then 0
  else if 0 ≤ p.y then Real.arccos ((p.x : ℝ) / p.mag)
  else 2 * Real.pi - Real.arccos ((p.x : ℝ) / p.mag)

/-- `Material`: the four strength fields, each `None` until parsed. -/
structure Material where
  uts : Option ℚ
  ys : Option ℚ
  E : Option ℚ
  staticFactor : Option ℚ
deriving DecidableEq

/-- `Material()`: every field defaults to `None`. -/
def Material.init : Material :=
  ⟨none, none, none, none⟩

/-- `Node`: a named joint.  The parser always supplies a name and a
position, so the `None` defaults of the Python constructor never occur
in a stored node. -/
structure Node where
  name : String
  position : Position
deriving DecidableEq

/-- `Link`: a named member joining two node names; `length` and
`angleRad` hold derived real geometry once computed, `None` before. -/
structure Link where
  name : String
  node1_Name : String
  node2_Name : String
  length : Option ℝ
  angleRad : Option ℝ

/-- `Link.__init__(name, node1, node2, length, angleRad)` of
`Truss_stem.py`: stores the three names but sets `self.length` and
`self.angleRad` to `None` unconditionally, ignoring the `length` and
`angleRad` parameters. -/
def Link.init (name node1 node2 : String) (length angleRad : Option ℝ) : Link :=
  { name := name, node1_Name := node1, node2_Name := node2,
    length := none, angleRad := none }

/-- `TrussModel`: title, links, nodes, material (fields in source order). -/
structure TrussModel where
  title : Option String
  links : List Link
  nodes : List Node
  material : Material

/-- `TrussModel()`: empty title and collections, default material. -/
def TrussModel.init : TrussModel :=
  ⟨none, [], [], Material.init⟩

/-- `getNode(name)`: linear scan of the node list, first match wins,
`None` if absent.  The controller method and the model method are the
same scan over `self.truss.nodes`. -/
def TrussModel.getNode (m : TrussModel) (name : String) : Option Node :=
  m.nodes.find? (fun n => n.name == name)

/-- `hasNode(name)`: the same scan, as a membership test. -/
def TrussModel.hasNode (m : TrussModel) (name : String) : Bool :=
  m.nodes.any (fun n => n.name == name)

/-! ## The parser (`TrussController.ImportFromFile`, per-line body) -/

/-- One iteration of the `for line in data` loop of
`TrussController.ImportFromFile` in `Truss_stem.py`: strip the line, skip
comments and blanks, split on commas and strip the parts, lower-case the
keyword, and dispatch on it.  An `Except.error` is an exception raised by
that iteration (before any of its model mutation happens: each case
evaluates all of its conversions before it assigns). -/
def processLine (m : TrussModel) (rawLine : String) : Except PyError TrussModel :=
  let line := pyStrip rawLine
  if startsWithHash line || line.data.isEmpty then Except.ok m
  else
    match tokenize line with
    | [] => Except.ok m
    | keyword :: data =>
      match pyLower keyword with
      | "title" =>
        match data with
        | [] => Except.error PyError.indexError
        | t :: _ => Except.ok { m with title := some (stripQuotes t) }
      | "material" =>
        match pyFloats data with
        | Except.error e => Except.error e
        | Except.ok [u, yv, ev] =>
          Except.ok { m with material := ⟨some u, some yv, some ev, none⟩ }
        | Except.ok _ => Except.error (PyError.valueError "unpack")
      | "static_factor" =>
        match data with
        | [] => Except.error PyError.indexError
        | f :: _ =>
          match pyFloat f with
          | Except.error e => Except.error e
          | Except.ok v =>
            Except.ok { m with material := { m.material with staticFactor := some v } }
      | "node" =>
        match data with
        | [nm, xs, ys] =>
          match pyFloat xs with
          | Except.error e => Except.error e
          | Except.ok xv =>
            match pyFloat ys with
            | Except.error e => Except.error e
            | Except.ok yv =>
              Except.ok { m with nodes := m.nodes ++ [⟨nm, ⟨xv, -yv, 0⟩⟩] }
        | _ => Except.error (PyError.valueError "unpack")
      | "link" =>
        match data with
        | [nm, a, b] =>
          Except.ok { m with links := m.links ++ [Link.init nm a b none none] }
        | _ => Except.error (PyError.valueError "unpack")
      | _ => Except.ok m

/-- The whole `for line in data` loop, threading the model being built.
On an exception the loop stops and the pair carries the model as mutated
so far (in Python the controller keeps it in `self.truss`) together with
the propagating exception. -/
def processLines (m : TrussModel) (data : List String) : TrussModel × Option PyError :=
  match data with
  | [] => (m, none)
  | line :: rest =>
    match processLine m line with
    | Except.ok m2 => processLines m2 rest
    | Except.error e => (m, some e)

/-! ## The geometry engine (`TrussController.calcLinkVals`) -/

/-- The body of the `for l in self.truss.links` loop of `calcLinkVals`:
resolve both endpoint names (guarded by `hasNode`, then `getNode`); if
both resolve, set `l.length` and `l.angleRad` from
`r = n2.position - n1.position`; otherwise leave the link untouched.
No case raises. -/
noncomputable def calcLink (m : TrussModel) (l : Link) : Link :=
  let n1 : Option Node := if m.hasNode l.node1_Name then m.getNode l.node1_Name else none
  let n2 : Option Node := if m.hasNode l.node2_Name then m.getNode l.node2_Name else none
  match n1, n2 with
  | some a, some b =>
    let r := b.position.sub a.position
    { l with length := some r.mag, angleRad := some r.getAngleRad }
  | _, _ => l

/-- `calcLinkVals`: apply the loop body to every link of the model. -/
noncomputable def calcLinkVals (m : TrussModel) : TrussModel :=
  { m with links := m.links.map (calcLink m) }

/-! ## The report (`TrussView.displayReport`) -/

/-- `'{:0.2f}'.format(v)` where `v` is an optional number: raises
`TypeError` when `v` is `None`, succeeds otherwise.  The produced text is
read by no claim and is not modelled. -/
def fmtFixed2 {α : Type} (v : Option α) : Except PyError Unit :=
  match v with
  | none => Except.error PyError.typeError
  | some _ => Except.ok ()

/-- The `for l in truss.links` loop of `displayReport`: update the
running longest link (`if longest is None or l.length > longest.length`,
where comparing a `None` length raises `TypeError`), then format the
link's length and angle (raising `TypeError` on an unset one). -/
noncomputable def reportScan (links : List Link) (longest : Option Link) :
    Except PyError (Option Link) :=
  match links with
  | [] => Except.ok longest
  | l :: rest =>
    match
      (match longest with
       | none => Except.ok (some l)
       | some lg =>
         match l.length, lg.length with
         | some a, some b => Except.ok (if b < a then some l else some lg)
         | _, _ => Except.error PyError.typeError : Except PyError (Option Link))
    with
    | Except.error e => Except.error e
    | Except.ok longest2 =>
      match fmtFixed2 l.length with
      | Except.error e => Except.error e
      | Except.ok _ =>
        match fmtFixed2 l.angleRad with
        | Except.error e => Except.error e
        | Except.ok _ => reportScan rest longest2

/-- `TrussView.displayReport(truss)`: format the four material numbers
(each raising `TypeError` if still `None`; the title line formats with
`{}` and never raises), scan the links for the longest, then write
`longest.name` and friends to the widgets — an attribute access that
raises `AttributeError` when `longest` is still `None`.  The result is
the link whose fields reach the longest-link widgets. -/
noncomputable def displayReport (truss : TrussModel) : Except PyError Link :=
  match fmtFixed2 truss.material.staticFactor with
  | Except.error e => Except.error e
  | Except.ok _ =>
    match fmtFixed2 truss.material.uts with
    | Except.error e => Except.error e
    | Except.ok _ =>
      match fmtFixed2 truss.material.ys with
      | Except.error e => Except.error e
      | Except.ok _ =>
        match fmtFixed2 truss.material.E with
        | Except.error e => Except.error e
        | Except.ok _ =>
          match reportScan truss.links none with
          | Except.error e => Except.error e
          | Except.ok none => Except.error PyError.attributeError
          | Except.ok (some lg) => Except.ok lg

/-! ## The controller (`TrussController.ImportFromFile`) -/

/-- The controller holds the current model in `self.truss`. -/
structure TrussController where
  truss : TrussModel

/-- `TrussController.ImportFromFile(data)` of `Truss_stem.py`: the method
begins with `self.truss = TrussModel()`, discarding the previous model
object unread, then runs the parsing loop, `calcLinkVals`, and
`displayReport` (`drawTruss`, pure GUI drawing, is outside the embedded
scope).  The returned pair is the controller state after the call and the
exception that propagated out of it, if any; on an exception `self.truss`
keeps the model as built so far. -/
noncomputable def TrussController.ImportFromFile (c : TrussController)
    (data : List String) : TrussController × Option PyError :=
  match processLines TrussModel.init data with
  | (m, some e) => (⟨m⟩, some e)
  | (m, none) =>
    let m2 := calcLinkVals m
    match displayReport m2 with
    | Except.error e => (⟨m2⟩, some e)
    | Except.ok _ => (⟨m2⟩, none)

/-- The literal six-line input of spec §8. -/
def testLines : List String :=
  ["title,'Test'", "material,100,50,29000", "static_factor,2",
   "node,A,0,0", "node,B,3,4", "link,L1,A,B"]

/-- The model that parsing `testLines` builds (established below). -/
def testModel : TrussModel :=
  { title := some "Test",
    links := [Link.init "L1" "A" "B" none none],
    nodes := [⟨"A", ⟨0, 0, 0⟩⟩, ⟨"B", ⟨3, -4, 0⟩⟩],
    material := ⟨some 100, some 50, some 29000, some 2⟩ }

/-- A model with one fully resolvable link and one link whose second
endpoint name matches no node. -/
def danglingModel : TrussModel :=
  { title := none,
    links := [Link.init "L1" "A" "B" none none, Link.init "L2" "A" "Z" none none],
    nodes := [⟨"A", ⟨0, 0, 0⟩⟩, ⟨"B", ⟨3, -4, 0⟩⟩],
    material := Material.init }

/-! ## Helper lemmas

General facts about the embedded definitions, shared by the claim
theorems below. -/

set_option maxRecDepth 8000

/-- Evaluate `float(s)` on a recognized literal: the syntactic analysis
is decided by the kernel, the rational value by arithmetic. -/
lemma pyFloat_ok (s : String) (p : FloatParts) (v : ℚ)
    (hp : floatParts s.data = some p) (hv : ratOfParts p = v) :
    pyFloat s = Except.ok v := by
  simp [pyFloat, hp, hv]

/-- Evaluate `float(s)` on an unrecognizable literal. -/
lemma pyFloat_err (s : String) (hp : floatParts s.data = none) :
    pyFloat s = Except.error (PyError.valueError s) := by
  simp [pyFloat, hp]

/-- A `title` line stores the quote-stripped second field. -/
lemma processLine_title (m : TrussModel) (line kw t : String) (rest : List String)
    (hh : startsWithHash (pyStrip line) = false)
    (hne : (pyStrip line).data.isEmpty = false)
    (htok : tokenize (pyStrip line) = kw :: t :: rest)
    (hkw : pyLower kw = "title") :
    processLine m line = Except.ok { m with title := some (stripQuotes t) } := by
  simp [processLine, hh, hne, htok, hkw]

/-- A `material` line with three convertible fields replaces the whole
material, the fourth field reverting to `None`. -/
lemma processLine_material (m : TrussModel) (line kw su sy se : String) (u y e : ℚ)
    (hh : startsWithHash (pyStrip line) = false)
    (hne : (pyStrip line).data.isEmpty = false)
    (htok : tokenize (pyStrip line) = [kw, su, sy, se])
    (hkw : pyLower kw = "material")
    (hu : pyFloat su = Except.ok u)
    (hy : pyFloat sy = Except.ok y)
    (he : pyFloat se = Except.ok e) :
    processLine m line = Except.ok { m with material := ⟨some u, some y, some e, none⟩ } := by
  simp [processLine, hh, hne, htok, hkw, pyFloats, hu, hy, he]

/-- A `static_factor` line with a convertible field sets only the
`staticFactor` field of the current material. -/
lemma processLine_static_factor (m : TrussModel) (line kw sf : String) (f : ℚ)
    (hh : startsWithHash (pyStrip line) = false)
    (hne : (pyStrip line).data.isEmpty = false)
    (htok : tokenize (pyStrip line) = [kw, sf])
    (hkw : pyLower kw = "static_factor")
    (hf : pyFloat sf = Except.ok f) :
    processLine m line =
      Except.ok { m with material := { m.material with staticFactor := some f } } := by
  simp [processLine, hh, hne, htok, hkw, hf]

/-- A `node` line with two convertible coordinates appends a node at
`(x, -y, 0)`. -/
lemma processLine_node (m : TrussModel) (line kw nm xs ys : String) (x y : ℚ)
    (hh : startsWithHash (pyStrip line) = false)
    (hne : (pyStrip line).data.isEmpty = false)
    (htok : tokenize (pyStrip line) = [kw, nm, xs, ys])
    (hkw : pyLower kw = "node")
    (hx : pyFloat xs = Except.ok x)
    (hy : pyFloat ys = Except.ok y) :
    processLine m line = Except.ok { m with nodes := m.nodes ++ [⟨nm, ⟨x, -y, 0⟩⟩] } := by
  simp [processLine, hh, hne, htok, hkw, hx, hy]

/-- A `node` line whose x field does not convert raises that conversion's
exception, mutating nothing. -/
lemma processLine_node_badX (m : TrussModel) (line kw nm xs ys : String) (e : PyError)
    (hh : startsWithHash (pyStrip line) = false)
    (hne : (pyStrip line).data.isEmpty = false)
    (htok : tokenize (pyStrip line) = [kw, nm, xs, ys])
    (hkw : pyLower kw = "node")
    (hx : pyFloat xs = Except.error e) :
    processLine m line = Except.error e := by
  simp [processLine, hh, hne, htok, hkw, hx]

/-- A `link` line appends a link built by `Link.__init__`. -/
lemma processLine_link (m : TrussModel) (line kw nm a b : String)
    (hh : startsWithHash (pyStrip line) = false)
    (hne : (pyStrip line).data.isEmpty = false)
    (htok : tokenize (pyStrip line) = [kw, nm, a, b])
    (hkw : pyLower kw = "link") :
    processLine m line = Except.ok { m with links := m.links ++ [Link.init nm a b none none] } := by
  simp [processLine, hh, hne, htok, hkw]

/-- `hasNode` agrees with `getNode`: the two methods run the same scan. -/
lemma hasNode_eq_isSome (m : TrussModel) (nm : String) :
    m.hasNode nm = (m.getNode nm).isSome := by
  unfold TrussModel.hasNode TrussModel.getNode
  induction m.nodes with
  | nil => rfl
  | cons a t ih =>
    by_cases h : a.name == nm <;> simp [List.find?, h, ih]

/-- The loop body of `calcLinkVals`, with the redundant `hasNode` guard
eliminated in favour of the `getNode` results. -/
lemma calcLink_eq (m : TrussModel) (l : Link) :
    calcLink m l =
      match m.getNode l.node1_Name, m.getNode l.node2_Name with
      | some a, some b =>
        { l with length := some ((b.position.sub a.position).mag),
                 angleRad := some ((b.position.sub a.position).getAngleRad) }
      | _, _ => l := by
  unfold calcLink
  rw [hasNode_eq_isSome, hasNode_eq_isSome]
  cases h1 : m.getNode l.node1_Name <;> cases h2 : m.getNode l.node2_Name <;> simp

/-- Recomputing a link against a model with the same nodes changes
nothing: the stored geometry is a function of the node positions only. -/
lemma calcLink_stable (m m2 : TrussModel) (h : ∀ nm, m2.getNode nm = m.getNode nm)
    (l : Link) : calcLink m2 (calcLink m l) = calcLink m l := by
  rw [calcLink_eq m l]
  cases h1 : m.getNode l.node1_Name <;> cases h2 : m.getNode l.node2_Name <;>
    simp [calcLink_eq, h, h1, h2]

/-- `calcLinkVals` does not touch the node list. -/
lemma calcLinkVals_nodes (m : TrussModel) : (calcLinkVals m).nodes = m.nodes := rfl

/-- Parsing the literal six-line input of spec §8 succeeds and builds
`testModel`. -/
lemma testLines_parse : processLines TrussModel.init testLines = (testModel, none) := by
  have h100 : pyFloat "100" = Except.ok 100 :=
    pyFloat_ok "100" ⟨false, 100, 0, 0⟩ 100 (by decide) (by simp [ratOfParts])
  have h50 : pyFloat "50" = Except.ok 50 :=
    pyFloat_ok "50" ⟨false, 50, 0, 0⟩ 50 (by decide) (by simp [ratOfParts])
  have h29000 : pyFloat "29000" = Except.ok 29000 :=
    pyFloat_ok "29000" ⟨false, 29000, 0, 0⟩ 29000 (by decide) (by simp [ratOfParts])
  have h2 : pyFloat "2" = Except.ok 2 :=
    pyFloat_ok "2" ⟨false, 2, 0, 0⟩ 2 (by decide) (by simp [ratOfParts])
  have h0 : pyFloat "0" = Except.ok 0 :=
    pyFloat_ok "0" ⟨false, 0, 0, 0⟩ 0 (by decide) (by simp [ratOfParts])
  have h3 : pyFloat "3" = Except.ok 3 :=
    pyFloat_ok "3" ⟨false, 3, 0, 0⟩ 3 (by decide) (by simp [ratOfParts])
  have h4 : pyFloat "4" = Except.ok 4 :=
    pyFloat_ok "4" ⟨false, 4, 0, 0⟩ 4 (by decide) (by simp [ratOfParts])
  have s1 : processLine TrussModel.init "title,'Test'" =
      Except.ok ⟨some "Test", [], [], Material.init⟩ :=
    processLine_title TrussModel.init "title,'Test'" "title" "'Test'" []
      (by decide) (by decide) (by decide) (by decide)
  have s2 : processLine ⟨some "Test", [], [], Material.init⟩ "material,100,50,29000" =
      Except.ok ⟨some "Test", [], [], ⟨some 100, some 50, some 29000, none⟩⟩ :=
    processLine_material _ "material,100,50,29000" "material" "100" "50" "29000" 100 50 29000
      (by decide) (by decide) (by decide) (by decide) h100 h50 h29000
  have s3 : processLine ⟨some "Test", [], [], ⟨some 100, some 50, some 29000, none⟩⟩
      "static_factor,2" =
      Except.ok ⟨some "Test", [], [], ⟨some 100, some 50, some 29000, some 2⟩⟩ :=
    processLine_static_factor _ "static_factor,2" "static_factor" "2" 2
      (by decide) (by decide) (by decide) (by decide) h2
  have s4 : processLine ⟨some "Test", [], [], ⟨some 100, some 50, some 29000, some 2⟩⟩
      "node,A,0,0" =
      Except.ok ⟨some "Test", [], [⟨"A", ⟨0, 0, 0⟩⟩],
        ⟨some 100, some 50, some 29000, some 2⟩⟩ :=
    processLine_node _ "node,A,0,0" "node" "A" "0" "0" 0 0
      (by decide) (by decide) (by decide) (by decide) h0 h0
  have s5 : processLine ⟨some "Test", [], [⟨"A", ⟨0, 0, 0⟩⟩],
      ⟨some 100, some 50, some 29000, some 2⟩⟩ "node,B,3,4" =
      Except.ok ⟨some "Test", [], [⟨"A", ⟨0, 0, 0⟩⟩, ⟨"B", ⟨3, -4, 0⟩⟩],
        ⟨some 100, some 50, some 29000, some 2⟩⟩ :=
    processLine_node _ "node,B,3,4" "node" "B" "3" "4" 3 4
      (by decide) (by decide) (by decide) (by decide) h3 h4
  have s6 : processLine ⟨some "Test", [], [⟨"A", ⟨0, 0, 0⟩⟩, ⟨"B", ⟨3, -4, 0⟩⟩],
      ⟨some 100, some 50, some 29000, some 2⟩⟩ "link,L1,A,B" =
      Except.ok testModel :=
    processLine_link _ "link,L1,A,B" "link" "L1" "A" "B"
      (by decide) (by decide) (by decide) (by decide)
  simp [testLines, processLines, s1, s2, s3, s4, s5, s6]

/-- The geometry of the single link of `testModel`: the node positions
are `A = (0,0,0)` and `B = (3,-4,0)` (the input y of `B` was `4`), so the
delta is `(3,-4,0)`, of magnitude `5` and, its y being negative, of angle
`2*pi - acos(3/5)`. -/
lemma testModel_geometry :
    (calcLinkVals testModel).links =
      [⟨"L1", "A", "B", some 5, some (2 * Real.pi - Real.arccos (3 / 5))⟩] := by
  have hA : testModel.getNode "A" = some ⟨"A", ⟨0, 0, 0⟩⟩ := by decide
  have hB : testModel.getNode "B" = some ⟨"B", ⟨3, -4, 0⟩⟩ := by decide
  have hsub : Position.sub ⟨3, -4, 0⟩ ⟨0, 0, 0⟩ = ⟨3, -4, 0⟩ := by
    simp [Position.sub]
  have hmag : Position.mag ⟨3, -4, 0⟩ = 5 := by
    unfold Position.mag
    rw [show (((3 : ℚ) : ℝ) ^ 2 + ((-4 : ℚ) : ℝ) ^ 2 + ((0 : ℚ) : ℝ) ^ 2 = 25) by
      push_cast; norm_num]
    rw [show (25 : ℝ) = 5 ^ 2 by norm_num, Real.sqrt_sq (by norm_num : (0 : ℝ) ≤ 5)]
  have hang : Position.getAngleRad ⟨3, -4, 0⟩ = 2 * Real.pi - Real.arccos (3 / 5) := by
    unfold Position.getAngleRad
    rw [hmag]
    norm_num
  show List.map (calcLink testModel) testModel.links = _
  rw [show testModel.links = [Link.init "L1" "A" "B" none none] from rfl]
  rw [List.map_singleton, calcLink_eq]
  show (match testModel.getNode "A", testModel.getNode "B" with
       | some a, some b =>
         { Link.init "L1" "A" "B" none none with
            length := some ((b.position.sub a.position).mag),
            angleRad := some ((b.position.sub a.position).getAngleRad) }
       | _, _ => Link.init "L1" "A" "B" none none) :: [] = _
  rw [hA, hB]
  simp only [Link.init, hsub, hmag, hang]

/-! ## Claim theorems -/

/-- C1: the claim requires a `MalformedRecordError` carrying the line's
0-based index and raw text.  The code has no such error type: on the
spec's own failing record `node,C,notanumber,1` the import raises the
bare `ValueError` of `float(...)`, which carries only the offending
token, and the controller is left holding the partially built model
(node `A` from the preceding line is in it). -/
theorem importFromFile_raises_bare_valueError :
    (TrussController.ImportFromFile ⟨TrussModel.init⟩
        ["node,A,0,0", "node,C,notanumber,1"]).2 =
      some (PyError.valueError "notanumber") ∧
    (TrussController.ImportFromFile ⟨TrussModel.init⟩
        ["node,A,0,0", "node,C,notanumber,1"]).1.truss.nodes =
      [⟨"A", ⟨0, 0, 0⟩⟩] := by
  have h0 : pyFloat "0" = Except.ok 0 :=
    pyFloat_ok "0" ⟨false, 0, 0, 0⟩ 0 (by decide) (by simp [ratOfParts])
  have s1 : processLine TrussModel.init "node,A,0,0" =
      Except.ok ⟨none, [], [⟨"A", ⟨0, 0, 0⟩⟩], Material.init⟩ :=
    processLine_node TrussModel.init "node,A,0,0" "node" "A" "0" "0" 0 0
      (by decide) (by decide) (by decide) (by decide) h0 h0
  have s2 : processLine ⟨none, [], [⟨"A", ⟨0, 0, 0⟩⟩], Material.init⟩
      "node,C,notanumber,1" = Except.error (PyError.valueError "notanumber") :=
    processLine_node_badX _ "node,C,notanumber,1" "node" "C" "notanumber" "1" _
      (by decide) (by decide) (by decide) (by decide)
      (pyFloat_err "notanumber" (by decide))
  have hp : processLines TrussModel.init ["node,A,0,0", "node,C,notanumber,1"] =
      (⟨none, [], [⟨"A", ⟨0, 0, 0⟩⟩], Material.init⟩,
        some (PyError.valueError "notanumber")) := by
    simp [processLines, s1, s2]
  constructor <;> simp [TrussController.ImportFromFile, hp]

/-- C2: every parsed `node` record with name `nm` and numeric fields
`x`, `y` appends to the model a node at position `(x, -y, 0)`: the input
y-coordinate's sign is inverted before storage, and nothing else in the
model changes. -/
theorem node_position_inverts_y (m : TrussModel) (line kw nm xs ys : String) (x y : ℚ)
    (hh : startsWithHash (pyStrip line) = false)
    (hne : (pyStrip line).data.isEmpty = false)
    (htok : tokenize (pyStrip line) = [kw, nm, xs, ys])
    (hkw : pyLower kw = "node")
    (hx : pyFloat xs = Except.ok x)
    (hy : pyFloat ys = Except.ok y) :
    processLine m line = Except.ok { m with nodes := m.nodes ++ [⟨nm, ⟨x, -y, 0⟩⟩] } :=
  processLine_node m line kw nm xs ys x y hh hne htok hkw hx hy

/-- C2 witness: the record `node,B,3,4` appends node `B` at `(3, -4, 0)`
to the empty model. -/
theorem node_position_inverts_y_witness :
    startsWithHash (pyStrip "node,B,3,4") = false ∧
    (pyStrip "node,B,3,4").data.isEmpty = false ∧
    tokenize (pyStrip "node,B,3,4") = ["node", "B", "3", "4"] ∧
    pyLower "node" = "node" ∧
    pyFloat "3" = Except.ok 3 ∧
    pyFloat "4" = Except.ok 4 ∧
    processLine TrussModel.init "node,B,3,4" =
      Except.ok ⟨none, [], [⟨"B", ⟨3, -4, 0⟩⟩], Material.init⟩ :=
  ⟨by decide, by decide, by decide, by decide,
   pyFloat_ok "3" ⟨false, 3, 0, 0⟩ 3 (by decide) (by simp [ratOfParts]),
   pyFloat_ok "4" ⟨false, 4, 0, 0⟩ 4 (by decide) (by simp [ratOfParts]),
   node_position_inverts_y TrussModel.init "node,B,3,4" "node" "B" "3" "4" 3 4
     (by decide) (by decide) (by decide) (by decide)
     (pyFloat_ok "3" ⟨false, 3, 0, 0⟩ 3 (by decide) (by simp [ratOfParts]))
     (pyFloat_ok "4" ⟨false, 4, 0, 0⟩ 4 (by decide) (by simp [ratOfParts]))⟩

/-- C3: a `material` record with numeric fields `u`, `y`, `e` leaves the
model's material with ultimate strength `u`, yield strength `y` and
modulus `e` (all three stored, the static factor reset to `None` by the
wholesale replacement), and a later `static_factor` record sets exactly
the fourth material field of whatever model it meets. -/
theorem material_stores_three_then_static_factor (m : TrussModel)
    (l1 l2 kw1 kw2 su sy se sf : String) (u y e f : ℚ)
    (hh1 : startsWithHash (pyStrip l1) = false)
    (hne1 : (pyStrip l1).data.isEmpty = false)
    (htok1 : tokenize (pyStrip l1) = [kw1, su, sy, se])
    (hkw1 : pyLower kw1 = "material")
    (hu : pyFloat su = Except.ok u)
    (hy : pyFloat sy = Except.ok y)
    (he : pyFloat se = Except.ok e)
    (hh2 : startsWithHash (pyStrip l2) = false)
    (hne2 : (pyStrip l2).data.isEmpty = false)
    (htok2 : tokenize (pyStrip l2) = [kw2, sf])
    (hkw2 : pyLower kw2 = "static_factor")
    (hf : pyFloat sf = Except.ok f) :
    processLine m l1 = Except.ok { m with material := ⟨some u, some y, some e, none⟩ } ∧
    (∀ m1 : TrussModel, processLine m1 l2 =
      Except.ok { m1 with material := { m1.material with staticFactor := some f } }) :=
  ⟨processLine_material m l1 kw1 su sy se u y e hh1 hne1 htok1 hkw1 hu hy he,
   fun m1 => processLine_static_factor m1 l2 kw2 sf f hh2 hne2 htok2 hkw2 hf⟩

/-- C3 witness: `material,100,50,29000` stores `(100, 50, 29000, None)`
and a later `static_factor,2` sets the fourth field. -/
theorem material_stores_three_then_static_factor_witness :
    tokenize (pyStrip "material,100,50,29000") = ["material", "100", "50", "29000"] ∧
    tokenize (pyStrip "static_factor,2") = ["static_factor", "2"] ∧
    (processLine TrussModel.init "material,100,50,29000" =
      Except.ok ⟨none, [], [], ⟨some 100, some 50, some 29000, none⟩⟩ ∧
    (∀ m1 : TrussModel, processLine m1 "static_factor,2" =
      Except.ok { m1 with material := { m1.material with staticFactor := some 2 } })) :=
  ⟨by decide, by decide,
   material_stores_three_then_static_factor TrussModel.init
     "material,100,50,29000" "static_factor,2" "material" "static_factor"
     "100" "50" "29000" "2" 100 50 29000 2
     (by decide) (by decide) (by decide) (by decide)
     (pyFloat_ok "100" ⟨false, 100, 0, 0⟩ 100 (by decide) (by simp [ratOfParts]))
     (pyFloat_ok "50" ⟨false, 50, 0, 0⟩ 50 (by decide) (by simp [ratOfParts]))
     (pyFloat_ok "29000" ⟨false, 29000, 0, 0⟩ 29000 (by decide) (by simp [ratOfParts]))
     (by decide) (by decide) (by decide) (by decide)
     (pyFloat_ok "2" ⟨false, 2, 0, 0⟩ 2 (by decide) (by simp [ratOfParts]))⟩

/-- C4: the claim (and the docstring of `ImportFromFile` itself) says a
repeated node name is not added again.  The match-case parsing loop of
`Truss_stem.py` appends every `node` record unconditionally: after
`node,A,0,0` and `node,A,1,1` the model holds TWO nodes named `A`.  The
lookup half of the claim does hold: `getNode` scans in insertion order,
so it returns the first definition. -/
theorem duplicate_node_appended :
    (processLines TrussModel.init ["node,A,0,0", "node,A,1,1"]).2 = none ∧
    (processLines TrussModel.init ["node,A,0,0", "node,A,1,1"]).1.nodes =
      [⟨"A", ⟨0, 0, 0⟩⟩, ⟨"A", ⟨1, -1, 0⟩⟩] ∧
    (processLines TrussModel.init ["node,A,0,0", "node,A,1,1"]).1.getNode "A" =
      some ⟨"A", ⟨0, 0, 0⟩⟩ := by
  have h0 : pyFloat "0" = Except.ok 0 :=
    pyFloat_ok "0" ⟨false, 0, 0, 0⟩ 0 (by decide) (by simp [ratOfParts])
  have h1 : pyFloat "1" = Except.ok 1 :=
    pyFloat_ok "1" ⟨false, 1, 0, 0⟩ 1 (by decide) (by simp [ratOfParts])
  have s1 : processLine TrussModel.init "node,A,0,0" =
      Except.ok ⟨none, [], [⟨"A", ⟨0, 0, 0⟩⟩], Material.init⟩ :=
    processLine_node TrussModel.init "node,A,0,0" "node" "A" "0" "0" 0 0
      (by decide) (by decide) (by decide) (by decide) h0 h0
  have s2 : processLine ⟨none, [], [⟨"A", ⟨0, 0, 0⟩⟩], Material.init⟩ "node,A,1,1" =
      Except.ok ⟨none, [], [⟨"A", ⟨0, 0, 0⟩⟩, ⟨"A", ⟨1, -1, 0⟩⟩], Material.init⟩ :=
    processLine_node _ "node,A,1,1" "node" "A" "1" "1" 1 1
      (by decide) (by decide) (by decide) (by decide) h1 h1
  refine ⟨?_, ?_, ?_⟩ <;> simp [processLines, s1, s2] <;> decide

/-- C5: the claim requires `longestLink = none` and no crash when no
link has a computed length.  `displayReport` instead dereferences the
still-`None` running maximum after the loop (`longest.name`), raising
`AttributeError` on a link-free model; and a link with an unset length is
not skipped but formatted, raising `TypeError`. -/
theorem displayReport_crashes_without_lengths :
    displayReport { title := some "T", links := [], nodes := [],
                    material := ⟨some 100, some 50, some 29000, some 2⟩ } =
      Except.error PyError.attributeError ∧
    displayReport { title := some "T", links := [Link.init "L1" "A" "B" none none],
                    nodes := [], material := ⟨some 100, some 50, some 29000, some 2⟩ } =
      Except.error PyError.typeError :=
  ⟨rfl, rfl⟩

/-- C6 counterexample: on the literal six-line input of spec §8, link
`L1` does NOT get `angleRad = acos(3/5)`.  The y-inversion of §4.1 puts
`B` at `(3, -4, 0)`, the delta `B - A` has negative y, and the angle rule
of §3 then yields `2*pi - acos(3/5)`, which differs from `acos(3/5)`. -/
theorem literal_input_angle_not_acos :
    ¬ ((calcLinkVals (processLines TrussModel.init testLines).1).links.map Link.angleRad =
        [some (Real.arccos (3 / 5))]) := by
  rw [testLines_parse]
  show ¬ ((calcLinkVals testModel).links.map Link.angleRad = [some (Real.arccos (3 / 5))])
  rw [testModel_geometry]
  simp only [List.map_cons, List.map_nil, List.cons.injEq, and_true, Option.some.injEq]
  intro h
  have hpi : Real.arccos (3 / 5) = Real.pi := by linarith
  have hc := Real.cos_arccos (by norm_num : (-1 : ℝ) ≤ 3 / 5) (by norm_num : (3 : ℝ) / 5 ≤ 1)
  rw [hpi, Real.cos_pi] at hc
  norm_num at hc

/-- C6 as amended: on the literal six-line input, parsing succeeds and
link `L1` gets length `5` and `angleRad = 2*pi - acos(3/5)`. -/
theorem literal_input_geometry :
    (processLines TrussModel.init testLines).2 = none ∧
    (calcLinkVals (processLines TrussModel.init testLines).1).links.map Link.length =
      [some 5] ∧
    (calcLinkVals (processLines TrussModel.init testLines).1).links.map Link.angleRad =
      [some (2 * Real.pi - Real.arccos (3 / 5))] ∧
    (calcLinkVals (processLines TrussModel.init testLines).1).links.map Link.name =
      ["L1"] := by
  rw [testLines_parse]
  refine ⟨rfl, ?_, ?_, ?_⟩ <;>
    · show (calcLinkVals testModel).links.map _ = _
      rw [testModel_geometry]
      simp

/-- C7: for every link of every model, if either endpoint name resolves
to no node, `calcLinkVals` leaves that link exactly as it was (length and
angle still unset) and raises nothing — the embedding of `calcLinkVals`
is a total function — while a link whose two endpoints both resolve gets
`length = |n2 - n1|` and `angleRad` of the delta. -/
theorem calcLinkVals_skips_dangling_computes_resolved (m : TrussModel) (i : ℕ)
    (hi : i < m.links.length) :
    ((m.getNode (m.links[i].node1_Name) = none ∨
      m.getNode (m.links[i].node2_Name) = none) →
      (calcLinkVals m).links[i]? = some m.links[i]) ∧
    (∀ n1 n2, m.getNode (m.links[i].node1_Name) = some n1 →
      m.getNode (m.links[i].node2_Name) = some n2 →
      (calcLinkVals m).links[i]? = some
        { m.links[i] with
          length := some ((n2.position.sub n1.position).mag),
          angleRad := some ((n2.position.sub n1.position).getAngleRad) }) := by
  have hmap : (calcLinkVals m).links[i]? = some (calcLink m (m.links[i])) := by
    show (List.map (calcLink m) m.links)[i]? = _
    simp [List.getElem?_map, List.getElem?_eq_getElem hi]
  constructor
  · intro hcase
    rw [hmap, calcLink_eq]
    rcases hcase with h | h <;> rw [h] <;>
      cases h2 : m.getNode (m.links[i].node1_Name) <;>
      cases h3 : m.getNode (m.links[i].node2_Name) <;> rfl
  · intro n1 n2 h1 h2
    rw [hmap, calcLink_eq, h1, h2]

/-- C7 witness: in `danglingModel`, the link `L2` references the missing
node name `Z` and survives `calcLinkVals` untouched. -/
theorem calcLinkVals_skips_dangling_witness :
    1 < danglingModel.links.length ∧
    danglingModel.getNode "Z" = none ∧
    (calcLinkVals danglingModel).links[1]? =
      some (Link.init "L2" "A" "Z" none none) :=
  ⟨by decide, by decide,
   (calcLinkVals_skips_dangling_computes_resolved danglingModel 1 (by decide)).1
     (Or.inr (by decide))⟩

/-- C8: `ImportFromFile` begins with `self.truss = TrussModel()`, so the
call's outcome — the model built, and any exception — is a function of
the input lines alone: two controllers holding arbitrarily different
previous models produce identical results.  (In this functional
embedding the previously returned model is a value that nothing can
mutate; what the theorem adds is that it is not read either.) -/
theorem importFromFile_ignores_previous_model (c1 c2 : TrussController)
    (data : List String) :
    c1.ImportFromFile data = c2.ImportFromFile data := rfl

/-- C9: running `calcLinkVals` a second time on an already-computed model
reproduces exactly the same model: the node list is untouched by the
first run and every link's stored geometry is a pure function of the
node positions. -/
theorem calcLinkVals_idempotent (m : TrussModel) :
    calcLinkVals (calcLinkVals m) = calcLinkVals m := by
  obtain ⟨t, ls, ns, mat⟩ := m
  simp only [calcLinkVals, List.map_map]
  congr 1
  exact List.map_congr_left fun l _ =>
    calcLink_stable ⟨t, ls, ns, mat⟩ _ (fun nm => rfl) l

/-- C10: `Link.__init__` stores `None` into `self.length` and
`self.angleRad` unconditionally, whatever `length` and `angleRad`
arguments the caller passes. -/
theorem link_init_geometry_unset (name node1 node2 : String)
    (length angleRad : Option ℝ) :
    (Link.init name node1 node2 length angleRad).length = none ∧
    (Link.init name node1 node2 length angleRad).angleRad = none :=
  ⟨rfl, rfl⟩

end TrussSpec
